import Mathlib

/-!
Verification of the orchestration core of the okex-v1 trading framework
(`src/main.c` against `include/exchange.h`, `include/strategy.h`).

The C program is a single-threaded polling loop over three function-pointer
interfaces (exchange, strategy, web server).  We embed it shallowly: machine
doubles become rationals, C ints become `Int`, the external collaborators
(exchange adapter, strategy, web server) become an environment `Env` of
oracles indexed by the cycle number, and each observable action of the loop
becomes an `Event` in a trace.  The `while (g_running)` loop is unrolled by
an explicit fuel parameter; the stop flag observed at the top of cycle `n`
is a function `running : Nat -> Bool`.
-/

namespace OkexV1

/-- One `(price, amount)` level of the order book
(`struct { double price; double amount; }` in `depth_info_t`). -/
structure DepthLevel where
  price : ℚ
  amount : ℚ
deriving DecidableEq, Repr

/-- Embedding of `depth_info_t` from `exchange.h`: ask/bid levels (the C
fixed arrays of ten slots become lists) and their counts. -/
structure depth_info_t where
  asks : List DepthLevel
  bids : List DepthLevel
  ask_count : Int
  bid_count : Int
deriving DecidableEq, Repr

/-- Embedding of `account_info_t` from `exchange.h`. -/
structure account_info_t where
  balance : ℚ
  stocks : ℚ
  frozen_balance : ℚ
  frozen_stocks : ℚ
deriving DecidableEq, Repr

/-- Embedding of `strategy_stats_t` from `strategy.h`
(`time_t` becomes `Int`). -/
structure strategy_stats_t where
  total_profit : ℚ
  daily_profit : ℚ
  total_trades : Int
  successful_trades : Int
  max_drawdown : ℚ
  win_rate : ℚ
  last_trade_time : Int
deriving DecidableEq, Repr

/-- Observable actions of the orchestration core, in program order. -/
inductive Event where
  | getDepth (symbol : String) (ok : Bool)
  | onTick (depth : depth_info_t) (depth_count : Int)
  | getAccount (ok : Bool)
  | onAccount (account : account_info_t)
  | getStats (stats : strategy_stats_t)
  | broadcast (payload : String)
  | sleep (usec : Nat)
  | log (msg : String)
deriving DecidableEq, Repr

/-- The external collaborators of one run, as oracles indexed by the cycle
number `n`: return codes and out-parameter values of `get_depth` and
`get_account`, the (discarded) return value of `on_tick`, and the stats
snapshot written by `get_stats`. -/
structure Env where
  depthRet : Nat → Int
  depthVal : Nat → depth_info_t
  onTickRet : Nat → Int
  accountRet : Nat → Int
  accountVal : Nat → account_info_t
  statsVal : Nat → strategy_stats_t

/-- Rendering of a C `double` under the `%.2f` conversion, modelled on
rationals: round to the nearest hundredth and print with exactly two
decimal digits. -/
def fmt2 (q : ℚ) : String :=
  let n : Int := round (q * 100)
  let a : Nat := n.natAbs
  let intPart : Nat := a / 100
  let fracPart : Nat := a % 100
  (if n < 0 then "-" else "")
    ++ toString intPart ++ "."
    ++ (if fracPart < 10 then "0" else "") ++ toString fracPart

/-- The full status text produced by the format string
`"{\"total_profit\":%.2f,\"daily_profit\":%.2f,\"trades\":%d}"`
applied to a stats snapshot. -/
def statusString (st : strategy_stats_t) : String :=
  "\x7b\"total_profit\":" ++ fmt2 st.total_profit
    ++ ",\"daily_profit\":" ++ fmt2 st.daily_profit
    ++ ",\"trades\":" ++ toString st.total_trades ++ "\x7d"

/-- `snLogf(status, sizeof(status), ...)` writes into a 256-byte buffer and
truncates: at most 255 characters of the formatted text survive. -/
def snLogfStatus (st : strategy_stats_t) : String :=
  (statusString st).take 255

/-- The body of one iteration of `main_loop` (src/main.c lines 94-117),
as the trace of its observable actions in source order:
poll depth for `"BTC_USDT"` and on success deliver the snapshot to
`on_tick` with `depth_count = 1`; poll the account and on success deliver
it to `on_account`; read the stats; format and broadcast the status text;
sleep 100000 microseconds.  Failed polls are skipped silently: the C body
contains no `Logf` call. -/
def cycleEvents (env : Env) (n : Nat) : List Event :=
  Event.getDepth "BTC_USDT" (env.depthRet n == 0)
    :: (if env.depthRet n == 0 then [Event.onTick (env.depthVal n) 1] else [])
    ++ Event.getAccount (env.accountRet n == 0)
    :: (if env.accountRet n == 0 then [Event.onAccount (env.accountVal n)] else [])
    ++ [Event.getStats (env.statsVal n),
        Event.broadcast (snLogfStatus (env.statsVal n)),
        Event.sleep 100000]

/-- Fuel-bounded unrolling of `while (g_running) { ... }` in `main_loop`:
`running n` is the value of the `g_running` test at the top of cycle `n`;
when it holds the whole cycle body runs, then the loop continues at
`n + 1`.  `fuel` bounds how many iterations we observe. -/
def main_loop (env : Env) (running : Nat → Bool) : Nat → Nat → List Event
  | 0, _ => []
  | fuel + 1, n =>
      if running n then cycleEvents env n ++ main_loop env running fuel (n + 1)
      else []

/-- Embedding of `handle_signal` (src/main.c lines 15-18): log the signal
and set `g_running` to `0`, whatever its previous value and whatever the
signal number. -/
def handle_signal (_g_running : Int) (sig : Int) : Int × List Event :=
  (0, [Event.log ("Received signal " ++ toString sig ++ ", shutting down...")])

/-- Observable actions of `init_framework`, `main` and `cleanup`:
construction, start, cleanup/destroy calls on the three global components,
log lines, and the events of the polling loop. -/
inductive MEvent where
  | createExchange
  | initExchange
  | createStrategy
  | initStrategy
  | createWebserver
  | initWebserver
  | registerStrategy
  | startWebserver
  | startStrategy
  | logMsg (msg : String)
  | loopEvent (ev : Event)
  | cleanupWebserver
  | destroyWebserver
  | cleanupStrategy
  | destroyStrategy
  | cleanupExchange
  | destroyExchange
deriving DecidableEq, Repr

/-- Outcomes of the external constructors and lifecycle calls that `main`
and `init_framework` make: whether each `create_*` returns non-NULL, and
the return codes of each `init` and `start`. -/
structure SysEnv where
  createExchangeOk : Bool
  exchangeInitRet : Int
  createStrategyOk : Bool
  strategyInitRet : Int
  createWebserverOk : Bool
  webserverInitRet : Int
  webserverStartRet : Int
  strategyStartRet : Int

/-- The three global component pointers, abstracted to whether each is
non-NULL (`g_exchange`, `g_strategy`, `g_webserver` in src/main.c). -/
structure Globals where
  gExchange : Bool
  gStrategy : Bool
  gWebserver : Bool
deriving DecidableEq, Repr

/-- Embedding of `init_framework` (src/main.c lines 21-69): create and
init the exchange, then the strategy, then the web server, registering the
strategy last; on the first failure return `-1`, leaving the globals that
were already assigned.  `!g || g->init(...) != 0` short-circuits: a NULL
`create_*` result skips the `init` call.  Returns the C return value, the
resulting globals, and the trace. -/
def init_framework (e : SysEnv) : Int × Globals × List MEvent :=
  let g1 : Globals := ⟨e.createExchangeOk, false, false⟩
  let t1 : List MEvent :=
    [MEvent.createExchange]
      ++ (if e.createExchangeOk then [MEvent.initExchange] else [])
  if ¬ e.createExchangeOk ∨ e.exchangeInitRet ≠ 0 then
    (-1, g1, t1 ++ [MEvent.logMsg ("Failed to initialize exchange")])
  else
    let g2 : Globals := ⟨g1.gExchange, e.createStrategyOk, false⟩
    let t2 : List MEvent :=
      t1 ++ [MEvent.createStrategy]
        ++ (if e.createStrategyOk then [MEvent.initStrategy] else [])
    if ¬ e.createStrategyOk ∨ e.strategyInitRet ≠ 0 then
      (-1, g2, t2 ++ [MEvent.logMsg ("Failed to initialize strategy")])
    else
      let g3 : Globals := ⟨g2.gExchange, g2.gStrategy, e.createWebserverOk⟩
      let t3 : List MEvent :=
        t2 ++ [MEvent.createWebserver]
          ++ (if e.createWebserverOk then [MEvent.initWebserver] else [])
      if ¬ e.createWebserverOk ∨ e.webserverInitRet ≠ 0 then
        (-1, g3, t3 ++ [MEvent.logMsg ("Failed to initialize web server")])
      else
        (0, g3, t3 ++ [MEvent.registerStrategy])

/-- Embedding of `cleanup` (src/main.c lines 72-87): for each of the web
server, the strategy and the exchange, in that order, call its `cleanup`
and then its `destroy_*` only if the global pointer is non-NULL. -/
def cleanup (g : Globals) : List MEvent :=
  (if g.gWebserver then [MEvent.cleanupWebserver, MEvent.destroyWebserver] else [])
    ++ (if g.gStrategy then [MEvent.cleanupStrategy, MEvent.destroyStrategy] else [])
    ++ (if g.gExchange then [MEvent.cleanupExchange, MEvent.destroyExchange] else [])

/-- Embedding of `main` (src/main.c lines 121-156): run `init_framework`,
then start the web server, then start the strategy; on any failure log,
run `cleanup` and exit with code `1`; otherwise run `main_loop` (observed
through `fuel` iterations, with `running` the `g_running` test at the top
of each cycle), run `cleanup` and exit with code `0`.  Returns the exit
code and the trace. -/
def main (e : SysEnv) (env : Env) (running : Nat → Bool) (fuel : Nat) :
    Int × List MEvent :=
  let r := init_framework e
  if r.1 ≠ 0 then
    (1, r.2.2 ++ [MEvent.logMsg ("Framework initialization failed")] ++ cleanup r.2.1)
  else if e.webserverStartRet ≠ 0 then
    (1, r.2.2 ++ [MEvent.startWebserver,
                  MEvent.logMsg ("Failed to start web server")] ++ cleanup r.2.1)
  else if e.strategyStartRet ≠ 0 then
    (1, r.2.2 ++ [MEvent.startWebserver, MEvent.startStrategy,
                  MEvent.logMsg ("Failed to start strategy")] ++ cleanup r.2.1)
  else
    (0, r.2.2 ++ [MEvent.startWebserver, MEvent.startStrategy,
                  MEvent.logMsg ("Quantitative trading framework started")]
          ++ (main_loop env running fuel 0).map MEvent.loopEvent
          ++ cleanup r.2.1)

/-! ### Spec-side definitions

`specCycle` is written from the wording of spec §4.4 (steps 1-4), to be
compared against `cycleEvents`, which is translated from the C source. -/

/-- Spec §4.4 step 1: poll depth for the configured symbol; on success
deliver to `onTick`; on failure skip. -/
def specDepthStep (env : Env) (n : Nat) : List Event :=
  if env.depthRet n == 0 then
    [Event.getDepth "BTC_USDT" true, Event.onTick (env.depthVal n) 1]
  else
    [Event.getDepth "BTC_USDT" false]

/-- Spec §4.4 step 2: poll account; on success deliver to `onAccount`;
on failure skip. -/
def specAccountStep (env : Env) (n : Nat) : List Event :=
  if env.accountRet n == 0 then
    [Event.getAccount true, Event.onAccount (env.accountVal n)]
  else
    [Event.getAccount false]

/-- Spec §4.4 step 3: read the stats and push the serialized status record
to the status sink. -/
def specStatusStep (env : Env) (n : Nat) : List Event :=
  [Event.getStats (env.statsVal n),
   Event.broadcast (snLogfStatus (env.statsVal n))]

/-- Spec §4.4 step 4: sleep for the fixed interval (100 ms). -/
def specSleepStep : List Event :=
  [Event.sleep 100000]

/-- The cycle as the spec words it: step 1, then 2, then 3, then 4. -/
def specCycle (env : Env) (n : Nat) : List Event :=
  specDepthStep env n ++ specAccountStep env n ++ specStatusStep env n
    ++ specSleepStep

/-- Spec §6: all startup steps succeed (both creations and inits, and both
starts). -/
def startupOK (e : SysEnv) : Bool :=
  e.createExchangeOk && e.exchangeInitRet == 0
    && e.createStrategyOk && e.strategyInitRet == 0
    && e.createWebserverOk && e.webserverInitRet == 0
    && e.webserverStartRet == 0 && e.strategyStartRet == 0

/-- The exchange is constructed (assigned non-NULL) iff `create_exchange`
returned non-NULL. -/
def constructedExchange (e : SysEnv) : Bool :=
  e.createExchangeOk

/-- The strategy is constructed iff the exchange phase fully succeeded and
`create_strategy` returned non-NULL. -/
def constructedStrategy (e : SysEnv) : Bool :=
  e.createExchangeOk && e.exchangeInitRet == 0 && e.createStrategyOk

/-- The web server is constructed iff the exchange and strategy phases
fully succeeded and `create_webserver` returned non-NULL. -/
def constructedWebserver (e : SysEnv) : Bool :=
  e.createExchangeOk && e.exchangeInitRet == 0
    && e.createStrategyOk && e.strategyInitRet == 0 && e.createWebserverOk

/-! ### Helper predicates and lemmas -/

/-- Test for a broadcast event. -/
def isBroadcastEv : Event → Bool
  | Event.broadcast _ => true
  | _ => false

/-- Test for a log event. -/
def isLogEv : Event → Bool
  | Event.log _ => true
  | _ => false

/-- Test for a depth-poll event. -/
def isGetDepthEv : Event → Bool
  | Event.getDepth _ _ => true
  | _ => false

/-- Test for a polling-loop event inside the `main` trace. -/
def isLoopEvent : MEvent → Bool
  | MEvent.loopEvent _ => true
  | _ => false

/-- Test for a component-construction event. -/
def isCreateEvent : MEvent → Bool
  | MEvent.createExchange => true
  | MEvent.createStrategy => true
  | MEvent.createWebserver => true
  | _ => false

/-- Cleanup ordering rank: web-server teardown first, then strategy, then
exchange. -/
def cleanupRank : MEvent → Nat
  | MEvent.cleanupWebserver => 0
  | MEvent.destroyWebserver => 0
  | MEvent.cleanupStrategy => 1
  | MEvent.destroyStrategy => 1
  | MEvent.cleanupExchange => 2
  | MEvent.destroyExchange => 2
  | _ => 3

/-- Every event of the unrolled loop belongs to the body of some cycle. -/
lemma mem_main_loop {env : Env} {running : Nat → Bool} {ev : Event} :
    ∀ {fuel n : Nat}, ev ∈ main_loop env running fuel n →
      ∃ m, ev ∈ cycleEvents env m := by
  intro fuel
  induction fuel with
  | zero => intro n h; simp [main_loop] at h
  | succ k ih =>
      intro n h
      rw [main_loop] at h
      by_cases hr : running n = true
      · rw [if_pos hr, List.mem_append] at h
        rcases h with h | h
        · exact ⟨n, h⟩
        · exact ih h
      · rw [if_neg hr] at h; simp at h

/-- A concrete environment in which every poll succeeds. -/
def envOK : Env :=
  ⟨fun _ => 0, fun _ => ⟨[], [], 0, 0⟩, fun _ => 0, fun _ => 0,
   fun _ => ⟨0, 0, 0, 0⟩, fun _ => ⟨0, 0, 0, 0, 0, 0, 0⟩⟩

/-- A concrete environment in which both polls fail (return `1`) and
`on_tick` would return an error (`-1`) if it were ever consulted. -/
def envFail : Env :=
  ⟨fun _ => 1, fun _ => ⟨[], [], 0, 0⟩, fun _ => -1, fun _ => 1,
   fun _ => ⟨0, 0, 0, 0⟩, fun _ => ⟨0, 0, 0, 0, 0, 0, 0⟩⟩

/-- A concrete stop-flag history: true at the top of cycle 0, false from
cycle 1 on (a signal arrived during cycle 0). -/
def runningW : Nat → Bool :=
  fun n => n == 0

/-- The cycle body translated from the source coincides with the
four-step decomposition given by the spec. -/
lemma cycleEvents_eq_specCycle (env : Env) (n : Nat) :
    cycleEvents env n = specCycle env n := by
  unfold cycleEvents specCycle specDepthStep specAccountStep specStatusStep
    specSleepStep
  cases h1 : env.depthRet n == 0 <;> cases h2 : env.accountRet n == 0 <;>
    simp

/-- Unrolling one iteration of the loop while the stop flag still holds. -/
lemma main_loop_unroll (env : Env) (running : Nat → Bool) (fuel n : Nat)
    (h : running n = true) :
    main_loop env running (fuel + 1) n
      = cycleEvents env n ++ main_loop env running fuel (n + 1) := by
  rw [main_loop, if_pos h]

/-- Once the stop flag is cleared at the top of a cycle, the loop produces
nothing. -/
lemma main_loop_stopped (env : Env) (running : Nat → Bool) (fuel n : Nat)
    (h : running n = false) :
    main_loop env running fuel n = [] := by
  cases fuel with
  | zero => rfl
  | succ k => rw [main_loop, if_neg (by simp [h])]

/-- C1: every iteration of the orchestration loop performs its steps in
the fixed order poll depth / on success on_tick / poll account / on
success on_account / read stats / broadcast / sleep 100 ms: the cycle body
equals the step sequence of the spec, and each live iteration emits exactly
that sequence before the next cycle begins. -/
theorem cycle_step_order :
    ∀ (env : Env) (running : Nat → Bool) (fuel n : Nat),
      cycleEvents env n = specCycle env n ∧
      (running n = true →
        main_loop env running (fuel + 1) n
          = specCycle env n ++ main_loop env running fuel (n + 1)) := by
  intro env running fuel n
  refine ⟨cycleEvents_eq_specCycle env n, fun h => ?_⟩
  rw [main_loop_unroll env running fuel n h, cycleEvents_eq_specCycle]

/-- Witness for `cycle_step_order` at a concrete environment and stop-flag
history. -/
theorem cycle_step_order_witness :
    cycleEvents envOK 0 = specCycle envOK 0 ∧
      main_loop envOK runningW 1 0
        = specCycle envOK 0 ++ main_loop envOK runningW 0 1 :=
  ⟨(cycle_step_order envOK runningW 0 0).1,
   (cycle_step_order envOK runningW 0 0).2 (by decide)⟩

/-- C3: a failed depth poll does not prevent the account poll, the stats
read, or the status broadcast of that same cycle, and the depth poll is
issued exactly once in the cycle (no retry). -/
theorem depth_failure_cycle_continues :
    ∀ (env : Env) (n : Nat), env.depthRet n ≠ 0 →
      Event.getAccount (env.accountRet n == 0) ∈ cycleEvents env n ∧
      Event.getStats (env.statsVal n) ∈ cycleEvents env n ∧
      Event.broadcast (snLogfStatus (env.statsVal n)) ∈ cycleEvents env n ∧
      (cycleEvents env n).countP isGetDepthEv = 1 := by
  intro env n h
  have hb : (env.depthRet n == 0) = false := by
    simp [h]
  cases ha : (env.accountRet n == 0) <;>
    simp [cycleEvents, hb, ha, isGetDepthEv]

/-- Witness for `depth_failure_cycle_continues` at a concrete environment
whose depth poll fails. -/
theorem depth_failure_cycle_continues_witness :
    Event.getAccount (envFail.accountRet 0 == 0) ∈ cycleEvents envFail 0 ∧
      Event.getStats (envFail.statsVal 0) ∈ cycleEvents envFail 0 ∧
      Event.broadcast (snLogfStatus (envFail.statsVal 0)) ∈ cycleEvents envFail 0 ∧
      (cycleEvents envFail 0).countP isGetDepthEv = 1 :=
  depth_failure_cycle_continues envFail 0 (by decide)

/-- C2: a signal sets the stop flag to the stopped value `0`, idempotently
(a second signal leaves the flag where the first put it); and since the
loop consults the flag only at the top of each cycle, a cycle that started
with the flag still set runs to completion — including its broadcast and
its sleep — and no further cycle begins once the flag is observed clear. -/
theorem signal_shutdown_idempotent_cycle_completes :
    ∀ (g s1 s2 : Int) (env : Env) (running : Nat → Bool) (fuel n : Nat),
      running n = true → running (n + 1) = false →
      (handle_signal g s1).1 = 0 ∧
      (handle_signal (handle_signal g s1).1 s2).1 = (handle_signal g s1).1 ∧
      main_loop env running (fuel + 1) n = cycleEvents env n ∧
      Event.broadcast (snLogfStatus (env.statsVal n)) ∈ cycleEvents env n ∧
      Event.sleep 100000 ∈ cycleEvents env n := by
  intro g s1 s2 env running fuel n h1 h2
  refine ⟨rfl, rfl, ?_, ?_, ?_⟩
  · rw [main_loop_unroll env running fuel n h1,
        main_loop_stopped env running fuel (n + 1) h2, List.append_nil]
  · cases ha : (env.depthRet n == 0) <;> cases hb : (env.accountRet n == 0) <;>
      simp [cycleEvents, ha, hb]
  · cases ha : (env.depthRet n == 0) <;> cases hb : (env.accountRet n == 0) <;>
      simp [cycleEvents, ha, hb]

/-- Witness for `signal_shutdown_idempotent_cycle_completes`: two signals
during cycle 0, flag observed clear at the top of cycle 1. -/
theorem signal_shutdown_idempotent_cycle_completes_witness :
    (handle_signal 1 2).1 = 0 ∧
      (handle_signal (handle_signal 1 2).1 15).1 = (handle_signal 1 2).1 ∧
      main_loop envOK runningW 1 0 = cycleEvents envOK 0 ∧
      Event.broadcast (snLogfStatus (envOK.statsVal 0)) ∈ cycleEvents envOK 0 ∧
      Event.sleep 100000 ∈ cycleEvents envOK 0 :=
  signal_shutdown_idempotent_cycle_completes 1 2 15 envOK runningW 0 0
    (by decide) (by decide)

/-- The claim of C7 as stated: a failed depth poll is logged and `on_tick`
is skipped, and a failed account poll is logged and `on_account` is
skipped. -/
def claimC7 : Prop :=
  ∀ (env : Env) (n : Nat),
    (env.depthRet n ≠ 0 →
      (∃ msg, Event.log msg ∈ cycleEvents env n) ∧
      ∀ d c, Event.onTick d c ∉ cycleEvents env n) ∧
    (env.accountRet n ≠ 0 →
      (∃ msg, Event.log msg ∈ cycleEvents env n) ∧
      ∀ a, Event.onAccount a ∉ cycleEvents env n)

/-- C7 counterexample: the loop body contains no logging at all, so the
"logs the failure" half of the claim fails at a concrete environment whose
depth poll (and account poll) fails. -/
theorem poll_failure_logged_counterexample : ¬ claimC7 := by
  intro h
  rcases (h envFail 0).1 (by decide) with ⟨⟨msg, hm⟩, _⟩
  cases hb : (envFail.depthRet 0 == 0) <;>
    cases ha : (envFail.accountRet 0 == 0) <;>
      simp [cycleEvents, ha, hb] at hm

/-- C7 amended: when the depth poll of a cycle fails the loop silently skips
delivery to `on_tick` for that cycle, and when the account poll fails it
silently skips `on_account`; no log event is emitted from the loop body at
all. -/
theorem poll_failure_skips_silently :
    ∀ (env : Env) (n : Nat),
      (env.depthRet n ≠ 0 → ∀ d c, Event.onTick d c ∉ cycleEvents env n) ∧
      (env.accountRet n ≠ 0 → ∀ a, Event.onAccount a ∉ cycleEvents env n) ∧
      (∀ msg, Event.log msg ∉ cycleEvents env n) := by
  intro env n
  refine ⟨fun h d c => ?_, fun h a => ?_, fun msg => ?_⟩
  · have hb : (env.depthRet n == 0) = false := by simp [h]
    cases ha : (env.accountRet n == 0) <;> simp [cycleEvents, ha, hb]
  · have ha : (env.accountRet n == 0) = false := by simp [h]
    cases hb : (env.depthRet n == 0) <;> simp [cycleEvents, ha, hb]
  · cases hb : (env.depthRet n == 0) <;> cases ha : (env.accountRet n == 0) <;>
      simp [cycleEvents, ha, hb]

/-- Witness for `poll_failure_skips_silently` at a concrete environment
whose two polls fail. -/
theorem poll_failure_skips_silently_witness :
    Event.onTick ⟨[], [], 0, 0⟩ 1 ∉ cycleEvents envFail 0 ∧
      Event.onAccount ⟨0, 0, 0, 0⟩ ∉ cycleEvents envFail 0 ∧
      Event.log ("x") ∉ cycleEvents envFail 0 :=
  ⟨(poll_failure_skips_silently envFail 0).1 (by decide) ⟨[], [], 0, 0⟩ 1,
   (poll_failure_skips_silently envFail 0).2.1 (by decide) ⟨0, 0, 0, 0⟩,
   (poll_failure_skips_silently envFail 0).2.2 ("x")⟩

/-- Env with only the `on_tick` return oracle replaced. -/
def setOnTickRet (env : Env) (f : Nat → Int) : Env :=
  ⟨env.depthRet, env.depthVal, f, env.accountRet, env.accountVal, env.statsVal⟩

/-- C8: the loop discards the return value of `on_tick` — the cycle trace does
not depend on it at all — and even when it is nonzero the loop continues:
the iteration still unrolls normally and the cycle still contains its
account poll, stats read, broadcast and sleep. -/
theorem on_tick_return_discarded :
    ∀ (env : Env) (f : Nat → Int) (running : Nat → Bool) (fuel n : Nat),
      env.onTickRet n ≠ 0 →
      cycleEvents (setOnTickRet env f) n = cycleEvents env n ∧
      (running n = true →
        main_loop env running (fuel + 1) n
          = cycleEvents env n ++ main_loop env running fuel (n + 1)) ∧
      Event.getAccount (env.accountRet n == 0) ∈ cycleEvents env n ∧
      Event.getStats (env.statsVal n) ∈ cycleEvents env n ∧
      Event.broadcast (snLogfStatus (env.statsVal n)) ∈ cycleEvents env n ∧
      Event.sleep 100000 ∈ cycleEvents env n := by
  intro env f running fuel n _h
  refine ⟨rfl, fun hr => main_loop_unroll env running fuel n hr, ?_, ?_, ?_, ?_⟩ <;>
    cases ha : (env.depthRet n == 0) <;> cases hb : (env.accountRet n == 0) <;>
      simp [cycleEvents, ha, hb]

/-- Witness for `on_tick_return_discarded` at a concrete environment whose
`on_tick` returns `-1`. -/
theorem on_tick_return_discarded_witness :
    cycleEvents (setOnTickRet envFail fun _ => 7) 0 = cycleEvents envFail 0 ∧
      main_loop envFail runningW 1 0
        = cycleEvents envFail 0 ++ main_loop envFail runningW 0 1 ∧
      Event.getAccount (envFail.accountRet 0 == 0) ∈ cycleEvents envFail 0 ∧
      Event.getStats (envFail.statsVal 0) ∈ cycleEvents envFail 0 ∧
      Event.broadcast (snLogfStatus (envFail.statsVal 0)) ∈ cycleEvents envFail 0 ∧
      Event.sleep 100000 ∈ cycleEvents envFail 0 := by
  have h := on_tick_return_discarded envFail (fun _ => 7) runningW 0 0 (by decide)
  exact ⟨h.1, h.2.1 (by decide), h.2.2.1, h.2.2.2.1, h.2.2.2.2.1, h.2.2.2.2.2⟩

/-- Any depth-poll event of a cycle carries the literal symbol. -/
lemma getDepth_mem_symbol {env : Env} {n : Nat} {s : String} {ok : Bool}
    (h : Event.getDepth s ok ∈ cycleEvents env n) : s = "BTC_USDT" := by
  cases ha : (env.depthRet n == 0) <;> cases hb : (env.accountRet n == 0) <;>
    simp [cycleEvents, ha, hb] at h <;> tauto

/-- Any tick-delivery event of a cycle carries `depth_count = 1`. -/
lemma onTick_mem_count {env : Env} {n : Nat} {d : depth_info_t} {c : Int}
    (h : Event.onTick d c ∈ cycleEvents env n) : c = 1 := by
  cases ha : (env.depthRet n == 0) <;> cases hb : (env.accountRet n == 0) <;>
    simp [cycleEvents, ha, hb] at h <;> tauto

/-- C10: every depth poll issued anywhere in the unrolled loop uses the
fixed symbol `"BTC_USDT"`, and every delivery to `on_tick` passes exactly
one snapshot (`depth_count = 1`). -/
theorem depth_symbol_fixed_tick_count_one :
    ∀ (env : Env) (running : Nat → Bool) (fuel n : Nat) (s : String) (ok : Bool)
      (d : depth_info_t) (c : Int),
      (Event.getDepth s ok ∈ main_loop env running fuel n → s = "BTC_USDT") ∧
      (Event.onTick d c ∈ main_loop env running fuel n → c = 1) := by
  intro env running fuel n s ok d c
  constructor
  · intro h
    rcases mem_main_loop h with ⟨m, hm⟩
    exact getDepth_mem_symbol hm
  · intro h
    rcases mem_main_loop h with ⟨m, hm⟩
    exact onTick_mem_count hm

/-- Witness for `depth_symbol_fixed_tick_count_one`: one live cycle of a
concrete environment actually contains a depth poll and a tick delivery,
and the theorem applies to them. -/
theorem depth_symbol_fixed_tick_count_one_witness :
    ("BTC_USDT" = "BTC_USDT") ∧ ((1 : Int) = 1) :=
  ⟨(depth_symbol_fixed_tick_count_one envOK runningW 1 0 "BTC_USDT" true
      ⟨[], [], 0, 0⟩ 1).1 (by decide),
   (depth_symbol_fixed_tick_count_one envOK runningW 1 0 "BTC_USDT" true
      ⟨[], [], 0, 0⟩ 1).2 (by decide)⟩

/-- C6: each cycle contains exactly one broadcast; its payload is the
formatted status text built from the stats snapshot read in that same
cycle, and whenever the formatted text fits the 256-byte buffer the
payload is exactly
`{"total_profit":<number>,"daily_profit":<number>,"trades":<integer>}`
rendered from the `total_profit`, `daily_profit` and
`total_trades` fields. -/
theorem broadcast_payload_shape :
    ∀ (env : Env) (n : Nat),
      (cycleEvents env n).countP isBroadcastEv = 1 ∧
      Event.broadcast (snLogfStatus (env.statsVal n)) ∈ cycleEvents env n ∧
      ((statusString (env.statsVal n)).length ≤ 255 →
        Event.broadcast (statusString (env.statsVal n)) ∈ cycleEvents env n) := by
  intro env n
  have hmem : Event.broadcast (snLogfStatus (env.statsVal n)) ∈ cycleEvents env n := by
    cases ha : (env.depthRet n == 0) <;> cases hb : (env.accountRet n == 0) <;>
      simp [cycleEvents, ha, hb]
  refine ⟨?_, hmem, fun hlen => ?_⟩
  · cases ha : (env.depthRet n == 0) <;> cases hb : (env.accountRet n == 0) <;>
      simp [cycleEvents, ha, hb, isBroadcastEv]
  · have hlen2 : (statusString (env.statsVal n)).data.length ≤ 255 := hlen
    have heq : snLogfStatus (env.statsVal n) = statusString (env.statsVal n) := by
      unfold snLogfStatus
      rw [String.take_eq, List.take_of_length_le hlen2]
    rw [← heq]
    exact hmem

/-- Witness for `broadcast_payload_shape` at a concrete environment whose
status text is short. -/
theorem broadcast_payload_shape_witness :
    (cycleEvents envOK 0).countP isBroadcastEv = 1 ∧
      Event.broadcast (snLogfStatus (envOK.statsVal 0)) ∈ cycleEvents envOK 0 ∧
      Event.broadcast (statusString (envOK.statsVal 0)) ∈ cycleEvents envOK 0 :=
  ⟨(broadcast_payload_shape envOK 0).1,
   (broadcast_payload_shape envOK 0).2.1,
   (broadcast_payload_shape envOK 0).2.2 (by with_unfolding_all decide)⟩

/-- The startup trace contains no polling-loop event. -/
lemma init_framework_no_loopEvent (e : SysEnv) :
    (init_framework e).2.2.filter isLoopEvent = [] := by
  unfold init_framework
  split_ifs <;> simp [isLoopEvent]

/-- The cleanup trace contains no polling-loop event. -/
lemma cleanup_no_loopEvent (g : Globals) :
    (cleanup g).filter isLoopEvent = [] := by
  rcases g with ⟨a, b, c⟩
  cases a <;> cases b <;> cases c <;> rfl

/-- C9: if the stop flag is already cleared when the main loop is entered,
the loop body executes zero times — the loop trace is empty and the whole
`main` trace contains no loop event (no exchange call, no strategy
callback, no broadcast). -/
theorem stopped_before_entry_no_cycle :
    ∀ (e : SysEnv) (env : Env) (running : Nat → Bool) (fuel : Nat),
      running 0 = false →
      main_loop env running fuel 0 = [] ∧
      (main e env running fuel).2.filter isLoopEvent = [] := by
  intro e env running fuel h
  have hml : main_loop env running fuel 0 = [] :=
    main_loop_stopped env running fuel 0 h
  refine ⟨hml, ?_⟩
  simp only [main]
  by_cases h0 : (init_framework e).1 ≠ 0
  · rw [if_pos h0]
    simp [List.filter_append, init_framework_no_loopEvent,
      cleanup_no_loopEvent, isLoopEvent]
  · rw [if_neg h0]
    by_cases hw : e.webserverStartRet ≠ 0
    · rw [if_pos hw]
      simp [List.filter_append, init_framework_no_loopEvent,
        cleanup_no_loopEvent, isLoopEvent]
    · rw [if_neg hw]
      by_cases hs : e.strategyStartRet ≠ 0
      · rw [if_pos hs]
        simp [List.filter_append, init_framework_no_loopEvent,
          cleanup_no_loopEvent, isLoopEvent]
      · rw [if_neg hs]
        simp [List.filter_append, init_framework_no_loopEvent,
          cleanup_no_loopEvent, isLoopEvent, hml]

/-- Witness for `stopped_before_entry_no_cycle` with the flag cleared
before cycle 0. -/
theorem stopped_before_entry_no_cycle_witness :
    main_loop envOK (fun _ => false) 5 0 = [] ∧
      (main ⟨true, 0, true, 0, true, 0, 0, 0⟩ envOK (fun _ => false) 5).2.filter
          isLoopEvent = [] :=
  stopped_before_entry_no_cycle ⟨true, 0, true, 0, true, 0, 0, 0⟩ envOK
    (fun _ => false) 5 rfl

/-- `init_framework` returns `0` exactly when both creations and all
three inits succeed. -/
lemma init_framework_ret (e : SysEnv) :
    (init_framework e).1 = 0 ↔
      (e.createExchangeOk = true ∧ e.exchangeInitRet = 0 ∧
       e.createStrategyOk = true ∧ e.strategyInitRet = 0 ∧
       e.createWebserverOk = true ∧ e.webserverInitRet = 0) := by
  simp only [init_framework]
  by_cases h1 : (¬ e.createExchangeOk ∨ e.exchangeInitRet ≠ 0)
  · rw [if_pos h1]
    have hno : ¬ (e.createExchangeOk = true ∧ e.exchangeInitRet = 0 ∧
        e.createStrategyOk = true ∧ e.strategyInitRet = 0 ∧
        e.createWebserverOk = true ∧ e.webserverInitRet = 0) := by
      rintro ⟨a1, a2, -⟩
      rcases h1 with h | h
      · exact h a1
      · exact h a2
    simp [hno]
  · rw [if_neg h1]
    push_neg at h1
    by_cases h2 : (¬ e.createStrategyOk ∨ e.strategyInitRet ≠ 0)
    · rw [if_pos h2]
      have hno : ¬ (e.createExchangeOk = true ∧ e.exchangeInitRet = 0 ∧
          e.createStrategyOk = true ∧ e.strategyInitRet = 0 ∧
          e.createWebserverOk = true ∧ e.webserverInitRet = 0) := by
        rintro ⟨-, -, b1, b2, -⟩
        rcases h2 with h | h
        · exact h b1
        · exact h b2
      simp [hno]
    · rw [if_neg h2]
      push_neg at h2
      by_cases h3 : (¬ e.createWebserverOk ∨ e.webserverInitRet ≠ 0)
      · rw [if_pos h3]
        have hno : ¬ (e.createExchangeOk = true ∧ e.exchangeInitRet = 0 ∧
            e.createStrategyOk = true ∧ e.strategyInitRet = 0 ∧
            e.createWebserverOk = true ∧ e.webserverInitRet = 0) := by
          rintro ⟨-, -, -, -, c1, c2⟩
          rcases h3 with h | h
          · exact h c1
          · exact h c2
        simp [hno]
      · rw [if_neg h3]
        push_neg at h3
        simp [h1.1, h1.2, h2.1, h2.2, h3.1, h3.2]

/-- C4: `main` exits with code `0` exactly when every startup step
succeeded (after which shutdown is the normal signal-driven path), and
with code `1` when any startup step — creation or init of exchange,
strategy or web server, or either start — failed. -/
theorem exit_code_startup :
    ∀ (e : SysEnv) (env : Env) (running : Nat → Bool) (fuel : Nat),
      (main e env running fuel).1 = if startupOK e then 0 else 1 := by
  intro e env running fuel
  by_cases h0 : (init_framework e).1 ≠ 0
  · have hfail : startupOK e = false := by
      by_contra hc
      rw [Bool.not_eq_false] at hc
      simp only [startupOK, Bool.and_eq_true, beq_iff_eq] at hc
      exact h0 ((init_framework_ret e).mpr
        ⟨hc.1.1.1.1.1.1.1, hc.1.1.1.1.1.1.2, hc.1.1.1.1.1.2,
         hc.1.1.1.1.2, hc.1.1.1.2, hc.1.1.2⟩)
    simp only [main]
    rw [if_pos h0, hfail]
    simp
  · push_neg at h0
    have hinit := (init_framework_ret e).mp h0
    simp only [main]
    rw [if_neg (by simp [h0])]
    by_cases hw : e.webserverStartRet ≠ 0
    · have hfail : startupOK e = false := by
        by_contra hc
        rw [Bool.not_eq_false] at hc
        simp only [startupOK, Bool.and_eq_true, beq_iff_eq] at hc
        exact hw hc.1.2
      rw [if_pos hw, hfail]
      simp
    · rw [if_neg hw]
      push_neg at hw
      by_cases hs : e.strategyStartRet ≠ 0
      · have hfail : startupOK e = false := by
          by_contra hc
          rw [Bool.not_eq_false] at hc
          simp only [startupOK, Bool.and_eq_true, beq_iff_eq] at hc
          exact hs hc.2
        rw [if_pos hs, hfail]
        simp
      · rw [if_neg hs]
        push_neg at hs
        have hok : startupOK e = true := by
          simp only [startupOK, Bool.and_eq_true, beq_iff_eq]
          exact ⟨⟨⟨⟨⟨⟨⟨hinit.1, hinit.2.1⟩, hinit.2.2.1⟩, hinit.2.2.2.1⟩,
            hinit.2.2.2.2.1⟩, hinit.2.2.2.2.2⟩, hw⟩, hs⟩
        rw [hok]
        simp

/-- The globals left by `init_framework` record exactly which components
were constructed: each `g_*` is non-NULL iff control reached its
`create_*` call and that call returned non-NULL. -/
lemma init_framework_globals (e : SysEnv) :
    (init_framework e).2.1
      = ⟨constructedExchange e, constructedStrategy e, constructedWebserver e⟩ := by
  simp only [init_framework]
  by_cases h1 : (¬ e.createExchangeOk ∨ e.exchangeInitRet ≠ 0)
  · rw [if_pos h1]
    rcases h1 with h | h <;>
      simp [constructedExchange, constructedStrategy, constructedWebserver, h]
  · rw [if_neg h1]
    push_neg at h1
    by_cases h2 : (¬ e.createStrategyOk ∨ e.strategyInitRet ≠ 0)
    · rw [if_pos h2]
      rcases h2 with h | h <;>
        simp [constructedExchange, constructedStrategy, constructedWebserver,
          h, h1.1, h1.2]
    · rw [if_neg h2]
      push_neg at h2
      by_cases h3 : (¬ e.createWebserverOk ∨ e.webserverInitRet ≠ 0)
      · rw [if_pos h3]
        simp [constructedExchange, constructedStrategy, constructedWebserver,
          h1.1, h1.2, h2.1, h2.2]
      · rw [if_neg h3]
        simp [constructedExchange, constructedStrategy, constructedWebserver,
          h1.1, h1.2, h2.1, h2.2]

/-- The cleanup trace is ordered by rank: all web-server teardown before
all strategy teardown before all exchange teardown. -/
lemma cleanup_rank_sorted (g : Globals) :
    List.Pairwise (fun a b => cleanupRank a ≤ cleanupRank b) (cleanup g) := by
  rcases g with ⟨a, b, c⟩
  cases a <;> cases b <;> cases c <;> decide

/-- The teardown events of each component appear in the cleanup trace
exactly when the global pointer of that component is non-NULL. -/
lemma cleanup_mem_iff (g : Globals) :
    (MEvent.cleanupWebserver ∈ cleanup g ↔ g.gWebserver = true) ∧
    (MEvent.destroyWebserver ∈ cleanup g ↔ g.gWebserver = true) ∧
    (MEvent.cleanupStrategy ∈ cleanup g ↔ g.gStrategy = true) ∧
    (MEvent.destroyStrategy ∈ cleanup g ↔ g.gStrategy = true) ∧
    (MEvent.cleanupExchange ∈ cleanup g ↔ g.gExchange = true) ∧
    (MEvent.destroyExchange ∈ cleanup g ↔ g.gExchange = true) := by
  rcases g with ⟨a, b, c⟩
  cases a <;> cases b <;> cases c <;> decide

/-- On every exit path of `main`, the trace ends with the cleanup of the
globals produced by `init_framework`. -/
lemma cleanup_suffix_main (e : SysEnv) (env : Env) (running : Nat → Bool)
    (fuel : Nat) :
    cleanup ((init_framework e).2.1) <:+ (main e env running fuel).2 := by
  simp only [main]
  by_cases h0 : (init_framework e).1 ≠ 0
  · rw [if_pos h0]
    exact List.suffix_append _ _
  · rw [if_neg h0]
    by_cases hw : e.webserverStartRet ≠ 0
    · rw [if_pos hw]
      exact List.suffix_append _ _
    · rw [if_neg hw]
      by_cases hs : e.strategyStartRet ≠ 0
      · rw [if_pos hs]
        exact List.suffix_append _ _
      · rw [if_neg hs]
        exact List.suffix_append _ _

/-- The construction events of the startup trace are an initial segment of
the order exchange, strategy, web server. -/
lemma init_creates_ordered (e : SysEnv) :
    (init_framework e).2.2.filter isCreateEvent
      <+: [MEvent.createExchange, MEvent.createStrategy, MEvent.createWebserver] := by
  simp only [init_framework]
  by_cases h1 : (¬ e.createExchangeOk ∨ e.exchangeInitRet ≠ 0)
  · rw [if_pos h1]
    cases e.createExchangeOk <;>
      exact ⟨[MEvent.createStrategy, MEvent.createWebserver], rfl⟩
  · rw [if_neg h1]
    by_cases h2 : (¬ e.createStrategyOk ∨ e.strategyInitRet ≠ 0)
    · rw [if_pos h2]
      cases e.createExchangeOk <;> cases e.createStrategyOk <;>
        exact ⟨[MEvent.createWebserver], rfl⟩
    · rw [if_neg h2]
      by_cases h3 : (¬ e.createWebserverOk ∨ e.webserverInitRet ≠ 0)
      · rw [if_pos h3]
        cases e.createExchangeOk <;> cases e.createStrategyOk <;>
          cases e.createWebserverOk <;> exact ⟨[], rfl⟩
      · rw [if_neg h3]
        cases e.createExchangeOk <;> cases e.createStrategyOk <;>
          cases e.createWebserverOk <;> exact ⟨[], rfl⟩

/-- C5: components are constructed in the order exchange, strategy, web
server (the construction events are an initial segment of that order, and
a component counts as constructed exactly when control reached its
creation and the creation returned non-NULL); on every exit path the trace
ends with the cleanup of exactly those globals; and cleanup runs in strict
reverse order — web server, then strategy, then exchange — touching each
component only if it was constructed. -/
theorem construction_cleanup_reverse_order :
    ∀ (e : SysEnv) (env : Env) (running : Nat → Bool) (fuel : Nat)
      (g : Globals),
      (init_framework e).2.1
          = ⟨constructedExchange e, constructedStrategy e, constructedWebserver e⟩ ∧
      List.Pairwise (fun a b => cleanupRank a ≤ cleanupRank b) (cleanup g) ∧
      (MEvent.cleanupWebserver ∈ cleanup g ↔ g.gWebserver = true) ∧
      (MEvent.destroyWebserver ∈ cleanup g ↔ g.gWebserver = true) ∧
      (MEvent.cleanupStrategy ∈ cleanup g ↔ g.gStrategy = true) ∧
      (MEvent.destroyStrategy ∈ cleanup g ↔ g.gStrategy = true) ∧
      (MEvent.cleanupExchange ∈ cleanup g ↔ g.gExchange = true) ∧
      (MEvent.destroyExchange ∈ cleanup g ↔ g.gExchange = true) ∧
      cleanup ((init_framework e).2.1) <:+ (main e env running fuel).2 ∧
      (init_framework e).2.2.filter isCreateEvent
          <+: [MEvent.createExchange, MEvent.createStrategy,
               MEvent.createWebserver] := by
  intro e env running fuel g
  obtain ⟨m1, m2, m3, m4, m5, m6⟩ := cleanup_mem_iff g
  exact ⟨init_framework_globals e, cleanup_rank_sorted g, m1, m2, m3, m4, m5,
    m6, cleanup_suffix_main e env running fuel, init_creates_ordered e⟩

end OkexV1
